import Mathlib

/-!
Shallow embedding of `src/js/population-pyramid.js` (PopulationPyramidArcGIS).

The script is a single-threaded, event-driven client: a handful of pure
data-shaping functions plus a set of handlers that mutate module-level
globals (`allYearsData`, `currentYearIndex`, `isPlaying`, `animationInterval`,
`pyramidChart`) and the DOM.  We embed the globals and the observable DOM
surface as one record, `AppState`, and each handler as a state-transition
function on it.  JS numbers appearing here are demographic counts and array
indices manipulated only by negation, absolute value, `%` and comparisons,
so `Int`/`Nat` are faithful carriers.  Timers are modelled by a handle
field: `setInterval` registers a fresh handle, `clearInterval` removes it,
and a tick event has an effect only when its handle is the registered one.
-/

/-- One row of a raw per-country dataset document:
`{ ageGroup: string, male: number, female: number }`. -/
structure PyramidRow where
  ageGroup : String
  male : Int
  female : Int
deriving DecidableEq, Inhabited

/-- A raw per-country JSON document: `{ year, country, data: [...] }`. -/
structure RawCountryDataset where
  year : Int
  country : String
  data : List PyramidRow
deriving DecidableEq, Inhabited

/-- A normalized per-year entry as produced by `processRawData`:
`{ year, country, ageGroups: [...], male: [...], female: [...] }`. -/
structure YearSeriesEntry where
  year : Int
  country : String
  ageGroups : List String
  male : List Int
  female : List Int
deriving DecidableEq, Inhabited

/-- `processRawData(rawData)` from the source.  The JS builds
`const reversedData = [...rawData.data].reverse()`: the spread copies the
array and `reverse()` mutates only that copy, so the input document is left
untouched.  We return a pair: the function's return value (a one-element
array, "for consistency with multi-year potential") together with the input
document as it stands after the call, which makes the absence of mutation a
provable statement. -/
def processRawData (rawData : RawCountryDataset) :
    List YearSeriesEntry × RawCountryDataset :=
  let reversedData := rawData.data.reverse
  ([{ year := rawData.year
      country := rawData.country
      ageGroups := reversedData.map PyramidRow.ageGroup
      male := reversedData.map PyramidRow.male
      female := reversedData.map PyramidRow.female }],
   rawData)

/-- The data actually bound to a Chart.js instance by `initializeChart` /
`updateChartForAnimation`: y-axis labels, the `Male` dataset and the
`Female` dataset. -/
structure ChartInstance where
  labels : List String
  maleData : List Int
  femaleData : List Int
deriving DecidableEq, Inhabited

/-- The chart data built from one entry: labels are the age groups, the
`Male` dataset is `currentData.male.map(val => -val)` ("Negative for left
side"), the `Female` dataset is `currentData.female` unchanged. -/
def mkChart (currentData : YearSeriesEntry) : ChartInstance :=
  { labels := currentData.ageGroups
    maleData := currentData.male.map (fun val => -val)
    femaleData := currentData.female }

/-- The x-axis tick callback `value => Math.abs(value)` ("Show absolute
values"). -/
def xTickCallback (value : Int) : Int := |value|

/-- The numeric value displayed by the tooltip label callback: when
`context.parsed.x !== null` it shows `Math.abs(context.parsed.x)`
(`toLocaleString` only inserts thousands separators), otherwise no value. -/
def tooltipValue (parsedX : Option Int) : Option Int :=
  parsedX.map (fun x => |x|)

/-- The module-level globals of the script together with the observable DOM
surface the handlers write to. -/
structure AppState where
  /-- global `allYearsData` -/
  allYearsData : List YearSeriesEntry
  /-- global `currentYearIndex` -/
  currentYearIndex : Nat
  /-- global `isPlaying` -/
  isPlaying : Bool
  /-- the interval registered with the host scheduler; `none` when no
  interval is pending.  `clearInterval(animationInterval)` removes it. -/
  timer : Option Nat
  /-- next fresh handle `setInterval` would return -/
  nextTimerId : Nat
  /-- global `pyramidChart`; `none` before any chart is constructed -/
  chart : Option ChartInstance
  /-- number of constructed chart instances not yet `destroy()`ed -/
  liveCharts : Nat
  /-- `currentYearDisplay.textContent` -/
  yearDisplay : String
  /-- `dataSourceInfo.textContent` -/
  dataSourceInfo : String
  /-- `yearSlider.value` -/
  sliderValue : Int
  /-- `playPauseButton.textContent` -/
  buttonLabel : String
  /-- log of messages surfaced through `showMessage` -/
  messages : List String
deriving DecidableEq, Inhabited

/-- `initializeChart(dataIndex)` from the source: guarded on missing data or
an out-of-range index (then it only surfaces an error); otherwise it updates
the year/source displays and the slider, destroys any previously owned chart
instance (`if (pyramidChart) pyramidChart.destroy()`), and constructs a new
`Chart` bound to the current entry's data. -/
def initializeChart (dataIndex : Int) (s : AppState) : AppState :=
  if s.allYearsData.length = 0 ∨ dataIndex < 0 ∨
      (s.allYearsData.length : Int) ≤ dataIndex then
    { s with messages := s.messages ++ ["No data available to display chart."]
             dataSourceInfo := "Error: Could not load data."
             yearDisplay := "Year: ---" }
  else
    let currentData := s.allYearsData.getD dataIndex.toNat default
    { s with yearDisplay := "Year: " ++ toString currentData.year
             dataSourceInfo := "Data for \"" ++ currentData.country ++ "\""
             sliderValue := dataIndex
             liveCharts :=
               (if s.chart.isSome then s.liveCharts - 1 else s.liveCharts) + 1
             chart := some (mkChart currentData) }

/-- `updateChartForAnimation(dataIndex)` from the source: returns
immediately when `dataIndex < 0 || dataIndex >= allYearsData.length`;
otherwise sets `currentYearIndex`, the year display and the slider, and
swaps the existing chart instance's bound labels/datasets in place
(`pyramidChart.update()`).  The in-place swap is modelled through
`Option.map`: the handler only runs after `initializeChart` has installed a
chart. -/
def updateChartForAnimation (dataIndex : Int) (s : AppState) : AppState :=
  if dataIndex < 0 ∨ (s.allYearsData.length : Int) ≤ dataIndex then s
  else
    let data := s.allYearsData.getD dataIndex.toNat default
    { s with currentYearIndex := dataIndex.toNat
             yearDisplay := "Year: " ++ toString data.year
             sliderValue := dataIndex
             chart := s.chart.map (fun c =>
               { c with labels := data.ageGroups
                        maleData := data.male.map (fun val => -val)
                        femaleData := data.female }) }

/-- The body of the interval callback registered by `startAnimation`:
`currentYearIndex = (currentYearIndex + 1) % allYearsData.length;`
`updateChartForAnimation(currentYearIndex);`. -/
def intervalTick (s : AppState) : AppState :=
  let i := (s.currentYearIndex + 1) % s.allYearsData.length
  updateChartForAnimation (i : Int) { s with currentYearIndex := i }

/-- A tick event delivered by the host scheduler for interval handle `id`:
it runs the callback only if that interval is still registered (a cleared
interval never fires). -/
def fireTick (id : Nat) (s : AppState) : AppState :=
  if s.timer = some id then intervalTick s else s

/-- `startAnimation()` from the source: no-op when already playing or when
the series has at most one entry; otherwise flips `isPlaying`, updates the
button, registers a fresh 2000 ms interval and surfaces a message. -/
def startAnimation (s : AppState) : AppState :=
  if s.isPlaying ∨ s.allYearsData.length ≤ 1 then s
  else
    { s with isPlaying := true
             buttonLabel := "Pause"
             timer := some s.nextTimerId
             nextTimerId := s.nextTimerId + 1
             messages := s.messages ++ ["Animation started!"] }

/-- `stopAnimation()` from the source: `if (!isPlaying) return;` — a no-op
from the stopped state; otherwise flips `isPlaying`, updates the button,
cancels the pending interval (`clearInterval(animationInterval)`) and
surfaces a message. -/
def stopAnimation (s : AppState) : AppState :=
  if s.isPlaying then
    { s with isPlaying := false
             buttonLabel := "Play"
             timer := none
             messages := s.messages ++ ["Animation paused."] }
  else s

/-- The `yearSlider` `input` handler installed by `setupControls`: it calls
`stopAnimation()` first, then parses the slider value and calls
`updateChartForAnimation(newIndex)` only when `newIndex !== currentYearIndex`. -/
def sliderInput (newIndex : Int) (s : AppState) : AppState :=
  let s1 := stopAnimation s
  if newIndex = (s1.currentYearIndex : Int) then s1
  else updateChartForAnimation newIndex s1

/-- Accumulate the value of the longest prefix of decimal digits, stopping
at the first non-digit. -/
def decDigitsVal : List Char → Nat → Nat
  | [], acc => acc
  | c :: rest, acc =>
      if c.isDigit then decDigitsVal rest (acc * 10 + (c.toNat - 48)) else acc

/-- Value of the longest leading run of decimal digits; `none` when the
first character is not a digit (JS `parseInt` then yields `NaN`). -/
def parseDecPrefix (cs : List Char) : Option Nat :=
  match cs with
  | [] => none
  | c :: _ => if c.isDigit then some (decDigitsVal cs 0) else none

/-- Leading-whitespace skip, as `parseInt` performs before reading the
number. -/
def skipLeadingWs : List Char → List Char
  | [] => []
  | c :: rest => if c.isWhitespace then skipLeadingWs rest else c :: rest

/-- `parseInt(str, 10)`: skip leading whitespace, read an optional sign and
then the longest prefix of decimal digits; `NaN` (modelled as `none`) when
no digit follows.  `NaN` compares unequal to every number, so a `none`
result matches no entry downstream. -/
def parseIntBase10 (str : String) : Option Int :=
  match skipLeadingWs str.toList with
  | '-' :: rest => (parseDecPrefix rest).map (fun n => -(n : Int))
  | '+' :: rest => (parseDecPrefix rest).map (fun n => (n : Int))
  | cs => (parseDecPrefix cs).map (fun n => (n : Int))

/-- JS `Array.prototype.findIndex`: index of the first element satisfying
the predicate, `-1` when there is none. -/
def jsFindIndex (p : α → Bool) : List α → Int
  | [] => -1
  | x :: xs =>
      if p x then 0
      else
        let r := jsFindIndex p xs
        if r = -1 then -1 else r + 1

/-- The message `loadAndDisplayChart` surfaces when the `year` query
parameter matches no entry. -/
def yearNotFoundMsg (yearParam : String) : String :=
  "Year " ++ yearParam ++ " not found in dataset. Defaulting to first available year."

/-- The `year`-query-parameter step of `loadAndDisplayChart`, run right
after `allYearsData` is set: `if (yearParam && allYearsData.length > 0)`
(note that the empty string is falsy in JS, so a present-but-empty `year`
parameter skips the whole block), then `parseInt` and
`findIndex(d => d.year === requestedYear)`; a found index is written to
`currentYearIndex`, otherwise a warning is surfaced and the index is left
as it was. -/
def applyYearParam (yearParam : Option String) (s : AppState) : AppState :=
  match yearParam with
  | none => s
  | some yp =>
      if yp = "" ∨ s.allYearsData.length = 0 then s
      else
        let foundIndex : Int :=
          match parseIntBase10 yp with
          | some requestedYear =>
              jsFindIndex (fun d => d.year == requestedYear) s.allYearsData
          | none => -1
        if foundIndex = -1 then
          { s with messages := s.messages ++ [yearNotFoundMsg yp] }
        else
          { s with currentYearIndex := foundIndex.toNat }

/-- The default-country computation in `loadCountryList`:
`countryList.includes('Algeria') ? 'Algeria' : countryList[0]`
(`countryList[0]` is `undefined` — `none` — on an empty catalog). -/
def resolveDefault (countryList : List String) : Option String :=
  if countryList.contains "Algeria" then some "Algeria" else countryList.head?

/-- The initial-country resolution in `loadCountryList`:
`if (countryParam && countryList.includes(countryParam))` use the parameter
(the empty string is falsy in JS), else the default computation. -/
def resolveCountry (countryList : List String) (countryParam : Option String) :
    Option String :=
  match countryParam with
  | some p =>
      if p ≠ "" ∧ countryList.contains p then some p
      else resolveDefault countryList
  | none => resolveDefault countryList

/-- Outcome of a `fetch` of a JSON resource. -/
inductive FetchOutcome (α : Type) where
  | success (body : α)
  | httpError (status : Nat)
  | unreachable
deriving DecidableEq

/-- The message surfaced by `loadCountryList`'s catch branch. -/
def catalogFailureMsg : String :=
  "Could not load country list. Using default country."

/-- `loadCountryList()` from the source, reduced to its observable outcome:
the messages surfaced and the country passed to `loadAndDisplayChart`.  A
non-ok HTTP status throws (`if (!response.ok) throw ...`) and an
unreachable resource rejects; both land in the catch branch, which warns
and loads the hardcoded `'Algeria'` directly, so a catalog failure never
blocks the UI. -/
def loadCountryListModel (fetched : FetchOutcome (List String))
    (countryParam : Option String) : List String × Option String :=
  match fetched with
  | .success countryList => ([], resolveCountry countryList countryParam)
  | .httpError _ => ([catalogFailureMsg], some "Algeria")
  | .unreachable => ([catalogFailureMsg], some "Algeria")

/-- The operations that can act on the state after a stop, other than
`startAnimation`: the stop handler itself, a chart update, a slider move,
and a tick event delivered for some interval handle. -/
inductive Op where
  | stop
  | update (dataIndex : Int)
  | slider (newIndex : Int)
  | fire (id : Nat)
deriving DecidableEq

/-- Apply one operation. -/
def applyOp (s : AppState) : Op → AppState
  | .stop => stopAnimation s
  | .update dataIndex => updateChartForAnimation dataIndex s
  | .slider newIndex => sliderInput newIndex s
  | .fire id => fireTick id s

/-- Apply a sequence of operations, left to right. -/
def applyOps (ops : List Op) (s : AppState) : AppState :=
  ops.foldl applyOp s

/-- The normalized form of the worked example dataset of the spec
(`{year: 2025, country: "Algeria", data: [0-4, 5-9]}`). -/
def entryEx2025 : YearSeriesEntry :=
  { year := 2025, country := "Algeria"
    ageGroups := ["5-9", "0-4"], male := [110, 100], female := [105, 95] }

/-- A second concrete year entry, for multi-year states. -/
def entryEx2030 : YearSeriesEntry :=
  { year := 2030, country := "Algeria"
    ageGroups := ["5-9", "0-4"], male := [120, 90], female := [115, 85] }

/-- A third concrete year entry, for multi-year states. -/
def entryEx2035 : YearSeriesEntry :=
  { year := 2035, country := "Algeria"
    ageGroups := ["5-9", "0-4"], male := [130, 80], female := [125, 75] }

/-- The module state right after script start: empty data, index 0, not
playing, no timer, no chart. -/
def baseState : AppState :=
  { allYearsData := [], currentYearIndex := 0, isPlaying := false
    timer := none, nextTimerId := 0, chart := none, liveCharts := 0
    yearDisplay := "", dataSourceInfo := "", sliderValue := 0
    buttonLabel := "Play", messages := [] }

/-- Initial-load state holding a single-year dataset. -/
def sOneYear : AppState := { baseState with allYearsData := [entryEx2025] }

/-- Initial-load state holding a three-year dataset. -/
def sThreeYears : AppState :=
  { baseState with allYearsData := [entryEx2025, entryEx2030, entryEx2035] }

/-- A state in which the animation is playing on the three-year dataset. -/
def sPlaying : AppState :=
  { sThreeYears with isPlaying := true, timer := some 7, nextTimerId := 8
                     chart := some (mkChart entryEx2025), liveCharts := 1
                     buttonLabel := "Pause" }

/-- Claim C1: `processRawData` returns a single-element sequence whose
entry's `ageGroups`/`male`/`female` are the exact reverses of the input
columns, all three of length equal to the input `data` length, and the
input document is not mutated. -/
theorem claimC1_processRawData (raw : RawCountryDataset) :
    (processRawData raw).1 =
      [{ year := raw.year, country := raw.country
         ageGroups := (raw.data.map PyramidRow.ageGroup).reverse
         male := (raw.data.map PyramidRow.male).reverse
         female := (raw.data.map PyramidRow.female).reverse }]
    ∧ ((processRawData raw).1.headI).ageGroups.length = raw.data.length
    ∧ ((processRawData raw).1.headI).male.length = raw.data.length
    ∧ ((processRawData raw).1.headI).female.length = raw.data.length
    ∧ (processRawData raw).1.length = 1
    ∧ (processRawData raw).2 = raw := by
  refine ⟨?_, ?_, ?_, ?_, rfl, rfl⟩ <;>
    simp [processRawData, List.map_reverse]

/-- Claim C10: for every `dataIndex` outside `[0, allYearsData.length - 1]`,
`updateChartForAnimation` returns with the whole state unchanged. -/
theorem claimC10_updateGuard (dataIndex : Int) (s : AppState)
    (h : dataIndex < 0 ∨ (s.allYearsData.length : Int) ≤ dataIndex) :
    updateChartForAnimation dataIndex s = s := by
  simp [updateChartForAnimation, h]

/-- Witness for claim C10 at a concrete out-of-range index. -/
theorem claimC10_witness :
    ((3 : Int) < 0 ∨ ((sThreeYears.allYearsData.length : Int) ≤ 3)) ∧
      updateChartForAnimation 3 sThreeYears = sThreeYears :=
  ⟨by decide, claimC10_updateGuard 3 sThreeYears (by decide)⟩

/-- Claim C4: the `Male` dataset bound to the chart is the element-wise
negation of `entry.male` while `Female` is bound unchanged, every value-axis
tick label and tooltip value is the absolute value of the bound datum, and
hence the displayed male magnitudes are the original (nonnegative) input
values — the sign is never shown. -/
theorem claimC4_absDisplay (e : YearSeriesEntry)
    (h : e.male.all (fun v => 0 ≤ v) = true) :
    (mkChart e).maleData = e.male.map (fun val => -val)
    ∧ (mkChart e).femaleData = e.female
    ∧ (∀ value : Int, xTickCallback value = |value|)
    ∧ (∀ x : Int, tooltipValue (some x) = some |x|)
    ∧ (mkChart e).maleData.map xTickCallback = e.male := by
  simp only [List.all_eq_true, decide_eq_true_eq] at h
  refine ⟨rfl, rfl, fun _ => rfl, fun _ => rfl, ?_⟩
  simp only [mkChart, List.map_map]
  conv_rhs => rw [← List.map_id e.male]
  exact List.map_congr_left (fun a ha => by
    simp [xTickCallback, abs_of_nonneg (h a ha)])

/-- Witness for claim C4 on the spec's worked example entry. -/
theorem claimC4_witness :
    entryEx2025.male.all (fun v => 0 ≤ v) = true
    ∧ (mkChart entryEx2025).maleData =
        entryEx2025.male.map (fun val => -val)
    ∧ (mkChart entryEx2025).femaleData = entryEx2025.female
    ∧ xTickCallback (-110) = |(-110 : Int)|
    ∧ tooltipValue (some (-110)) = some |(-110 : Int)|
    ∧ (mkChart entryEx2025).maleData.map xTickCallback = entryEx2025.male :=
  ⟨by decide,
   (claimC4_absDisplay entryEx2025 (by decide)).1,
   (claimC4_absDisplay entryEx2025 (by decide)).2.1,
   (claimC4_absDisplay entryEx2025 (by decide)).2.2.1 (-110),
   (claimC4_absDisplay entryEx2025 (by decide)).2.2.2.1 (-110),
   (claimC4_absDisplay entryEx2025 (by decide)).2.2.2.2⟩

/-- Claim C5: `initializeChart` is idempotent for a valid index — the
previously owned chart instance is destroyed before the new one is
constructed, so repeating the call reproduces the same state, exactly one
chart instance is live afterwards, and a chart is installed. -/
theorem claimC5_renderIdempotent (dataIndex : Int) (s : AppState)
    (h0 : s.allYearsData.length ≠ 0) (h1 : 0 ≤ dataIndex)
    (h2 : dataIndex < (s.allYearsData.length : Int)) :
    initializeChart dataIndex (initializeChart dataIndex s) =
      initializeChart dataIndex s
    ∧ (s.liveCharts = (if s.chart.isSome then 1 else 0) →
        (initializeChart dataIndex s).liveCharts = 1)
    ∧ (initializeChart dataIndex s).chart.isSome = true := by
  obtain ⟨ayd, cyi, ip, tm, nti, ch, lc, yd, dsi, sv, bl, ms⟩ := s
  simp only at h0 h2
  have hc : ¬(ayd.length = 0 ∨ dataIndex < 0 ∨
      (ayd.length : Int) ≤ dataIndex) := by omega
  refine ⟨?_, ?_, ?_⟩
  · rcases ch with _ | c <;>
      · simp only [initializeChart, hc, if_false, Option.isSome_some,
          Option.isSome_none, if_true, Bool.false_eq_true, AppState.mk.injEq,
          and_true, true_and]
        omega
  · intro hl
    rcases ch with _ | c <;>
      simp only [Option.isSome_some, Option.isSome_none, if_true, if_false,
        Bool.false_eq_true] at hl <;>
      simp only [initializeChart, hc, if_false, Option.isSome_some,
        Option.isSome_none, Bool.false_eq_true, if_true] <;>
      omega
  · simp only [initializeChart, hc, if_false, Option.isSome_some]

/-- Witness for claim C5 on the concrete one-year state. -/
theorem claimC5_witness :
    sOneYear.allYearsData.length ≠ 0
    ∧ initializeChart 0 (initializeChart 0 sOneYear) =
        initializeChart 0 sOneYear
    ∧ (initializeChart 0 sOneYear).liveCharts = 1
    ∧ (initializeChart 0 sOneYear).chart.isSome = true :=
  ⟨by decide,
   (claimC5_renderIdempotent 0 sOneYear (by decide) (by decide) (by decide)).1,
   (claimC5_renderIdempotent 0 sOneYear (by decide) (by decide)
     (by decide)).2.1 (by decide),
   (claimC5_renderIdempotent 0 sOneYear (by decide) (by decide)
     (by decide)).2.2⟩

/-- `stopAnimation` from the stopped state is the identity. -/
theorem stopAnimation_noop (s : AppState) (h : s.isPlaying = false) :
    stopAnimation s = s := by
  simp [stopAnimation, h]

/-- `stopAnimation` never leaves the controller playing. -/
theorem stopAnimation_isPlaying (s : AppState) :
    (stopAnimation s).isPlaying = false := by
  by_cases hip : s.isPlaying = true <;> simp [stopAnimation, hip]

/-- `stopAnimation` does not change the current index. -/
theorem stopAnimation_index (s : AppState) :
    (stopAnimation s).currentYearIndex = s.currentYearIndex := by
  by_cases hip : s.isPlaying = true <;> simp [stopAnimation, hip]

/-- `updateChartForAnimation` touches neither the play flag nor the timer
nor the series. -/
theorem updateChartForAnimation_fields (dataIndex : Int) (s : AppState) :
    (updateChartForAnimation dataIndex s).isPlaying = s.isPlaying
    ∧ (updateChartForAnimation dataIndex s).timer = s.timer
    ∧ (updateChartForAnimation dataIndex s).allYearsData = s.allYearsData := by
  refine ⟨?_, ?_, ?_⟩ <;>
    · simp only [updateChartForAnimation]
      split <;> rfl

/-- One interval callback run on a nonempty series advances
`currentYearIndex` to `(currentYearIndex + 1) % allYearsData.length` and
leaves `allYearsData` unchanged. -/
theorem intervalTick_spec (s : AppState) :
    (intervalTick s).currentYearIndex =
      (s.currentYearIndex + 1) % s.allYearsData.length
    ∧ (intervalTick s).allYearsData = s.allYearsData := by
  constructor <;>
  · simp only [intervalTick, updateChartForAnimation]
    split <;> rfl

/-- After `k` interval callbacks from a valid index, the index is
`(start + k) % length`. -/
theorem intervalTick_iterate (k : Nat) (s : AppState)
    (h : 1 ≤ s.allYearsData.length)
    (hidx : s.currentYearIndex < s.allYearsData.length) :
    (intervalTick^[k] s).currentYearIndex =
      (s.currentYearIndex + k) % s.allYearsData.length
    ∧ (intervalTick^[k] s).allYearsData = s.allYearsData := by
  induction k generalizing s with
  | zero => simpa using (Nat.mod_eq_of_lt hidx).symm
  | succ k ih =>
      rw [Function.iterate_succ_apply]
      obtain ⟨h1, h2⟩ := intervalTick_spec s
      have h' : 1 ≤ (intervalTick s).allYearsData.length := by rw [h2]; exact h
      have hidx' : (intervalTick s).currentYearIndex <
          (intervalTick s).allYearsData.length := by
        rw [h1, h2]; exact Nat.mod_lt _ (by omega)
      obtain ⟨g1, g2⟩ := ih (intervalTick s) h' hidx'
      rw [h2] at g2
      refine ⟨?_, g2⟩
      rw [g1, h1, h2, Nat.mod_add_mod]
      congr 1
      omega

/-- Claim C3: each tick advances `currentIndex` to
`(currentIndex + 1) mod length`; after exactly `N` ticks the index returns
to its starting value, and after `0 < k < N` ticks it differs from it. -/
theorem claimC3_tickCycle (s : AppState) (N : Nat)
    (hN : s.allYearsData.length = N) (h1 : 1 ≤ N)
    (hidx : s.currentYearIndex < N) :
    (intervalTick s).currentYearIndex = (s.currentYearIndex + 1) % N
    ∧ (intervalTick^[N] s).currentYearIndex = s.currentYearIndex
    ∧ ∀ k, 0 < k → k < N →
        (intervalTick^[k] s).currentYearIndex ≠ s.currentYearIndex := by
  subst hN
  refine ⟨(intervalTick_spec s).1, ?_, ?_⟩
  · rw [(intervalTick_iterate _ s h1 hidx).1, Nat.add_mod_right,
      Nat.mod_eq_of_lt hidx]
  · intro k hk0 hkN heq
    rw [(intervalTick_iterate k s h1 hidx).1] at heq
    rcases Nat.lt_or_ge (s.currentYearIndex + k) s.allYearsData.length with
      hlt | hge
    · rw [Nat.mod_eq_of_lt hlt] at heq
      omega
    · rw [Nat.mod_eq_sub_mod hge,
        Nat.mod_eq_of_lt (by omega : s.currentYearIndex + k -
          s.allYearsData.length < s.allYearsData.length)] at heq
      omega

/-- `jsFindIndex` never returns anything below `-1`. -/
theorem jsFindIndex_ge (p : α → Bool) (l : List α) : -1 ≤ jsFindIndex p l := by
  induction l with
  | nil => simp [jsFindIndex]
  | cons x xs ih =>
      simp only [jsFindIndex]
      split
      · omega
      · split
        · omega
        · omega

/-- A nonnegative `jsFindIndex` result points at an element satisfying the
predicate. -/
theorem jsFindIndex_mem (p : α → Bool) (l : List α) (i : Int)
    (h : jsFindIndex p l = i) (hi : 0 ≤ i) :
    ∃ x, l.get? i.toNat = some x ∧ p x = true := by
  induction l generalizing i with
  | nil =>
      simp only [jsFindIndex] at h
      omega
  | cons x xs ih =>
      simp only [jsFindIndex] at h
      by_cases hp : p x = true
      · rw [if_pos hp] at h
        exact ⟨x, by simp [← h], hp⟩
      · rw [if_neg hp] at h
        by_cases h1 : jsFindIndex p xs = -1
        · rw [if_pos h1] at h
          omega
        · rw [if_neg h1] at h
          have hge := jsFindIndex_ge p xs
          obtain ⟨y, hy, hpy⟩ := ih (jsFindIndex p xs) rfl (by omega)
          refine ⟨y, ?_, hpy⟩
          have hts : i.toNat = (jsFindIndex p xs).toNat + 1 := by omega
          rw [hts]
          simpa using hy

/-- When no element satisfies the predicate, `jsFindIndex` returns `-1`. -/
theorem jsFindIndex_none (p : α → Bool) (l : List α)
    (h : ∀ x ∈ l, p x = false) : jsFindIndex p l = -1 := by
  induction l with
  | nil => rfl
  | cons x xs ih =>
      have hx : p x = false := h x (by simp)
      simp [jsFindIndex, hx, ih (fun y hy => h y (by simp [hy]))]

/-- Claim C2 (amended: the `year` parameter must also be non-empty, since
the empty string is falsy in JS): on initial load (`currentYearIndex = 0`)
with a non-empty `year` parameter, a parsed year found by `findIndex`
becomes the current index with no warning; when no entry matches — in
particular when the parameter does not parse to a number — a warning is
surfaced and the index stays 0. -/
theorem claimC2_yearParamAmended (s : AppState) (yp : String)
    (hne : yp ≠ "") (hlen : s.allYearsData.length ≠ 0)
    (h0 : s.currentYearIndex = 0) :
    (∀ y : Int, parseIntBase10 yp = some y →
      (∀ i : Int, jsFindIndex (fun d => d.year == y) s.allYearsData = i →
          0 ≤ i →
          (applyYearParam (some yp) s).currentYearIndex = i.toNat
          ∧ (applyYearParam (some yp) s).messages = s.messages
          ∧ ∃ e, s.allYearsData.get? i.toNat = some e ∧ e.year = y)
      ∧ ((∀ e ∈ s.allYearsData, e.year ≠ y) →
          (applyYearParam (some yp) s).currentYearIndex = 0
          ∧ (applyYearParam (some yp) s).messages =
              s.messages ++ [yearNotFoundMsg yp]))
    ∧ (parseIntBase10 yp = none →
        (applyYearParam (some yp) s).currentYearIndex = 0
        ∧ (applyYearParam (some yp) s).messages =
            s.messages ++ [yearNotFoundMsg yp]) := by
  have hg : ¬(yp = "" ∨ s.allYearsData.length = 0) := by
    push_neg
    exact ⟨hne, hlen⟩
  constructor
  · intro y hy
    constructor
    · intro i hfi hge
      have hni : ¬(i = -1) := by omega
      simp only [applyYearParam, hg, if_false, hy, hfi, hni]
      refine ⟨by trivial, by trivial, ?_⟩
      obtain ⟨e, he, hpe⟩ := jsFindIndex_mem _ _ i hfi hge
      exact ⟨e, he, by simpa using hpe⟩
    · intro hall
      have hfi : jsFindIndex (fun d => d.year == y) s.allYearsData = -1 :=
        jsFindIndex_none _ _ (fun e he => by simpa using hall e he)
      simp only [applyYearParam, hg, if_false, hy, hfi]
      exact ⟨h0, by simp⟩
  · intro hy
    simp only [applyYearParam, hg, if_false, hy]
    exact ⟨h0, by simp⟩

/-- Counterexample to claim C2 as stated: the URL `?year=` makes the `year`
parameter present with value `""`, which parses to `NaN` and matches no
entry, yet the code surfaces no warning at all (the whole block is skipped
because `""` is falsy) — the state is left completely unchanged. -/
theorem claimC2_counterexample :
    applyYearParam (some "") sOneYear = sOneYear
    ∧ sOneYear.messages = []
    ∧ parseIntBase10 "" = none
    ∧ sOneYear.currentYearIndex = 0 := by decide

/-- Witness for the amended claim C2: `?year=1800` against the 2025-only
dataset warns and keeps index 0. -/
theorem claimC2_witness :
    (applyYearParam (some "1800") sOneYear).currentYearIndex = 0
    ∧ (applyYearParam (some "1800") sOneYear).messages =
        sOneYear.messages ++ [yearNotFoundMsg "1800"] :=
  ((claimC2_yearParamAmended sOneYear "1800" (by decide) (by decide)
      (by decide)).1 1800 (by decide)).2 (by decide)

/-- Claim C8 (amended: the `country` parameter must also be non-empty,
since the empty string is falsy in JS): the initial country is the
parameter when present, non-empty and in the catalog; otherwise `"Algeria"`
when in the catalog; otherwise the first catalog entry; and on a nonempty
catalog exactly one country is always chosen. -/
theorem claimC8_countryPriority (countryList : List String)
    (countryParam : Option String) (hne : countryList ≠ []) :
    (∀ p, countryParam = some p → p ≠ "" → p ∈ countryList →
        resolveCountry countryList countryParam = some p)
    ∧ ((∀ p, countryParam = some p → p = "" ∨ p ∉ countryList) →
        "Algeria" ∈ countryList →
        resolveCountry countryList countryParam = some "Algeria")
    ∧ ((∀ p, countryParam = some p → p = "" ∨ p ∉ countryList) →
        "Algeria" ∉ countryList →
        resolveCountry countryList countryParam = countryList.head?)
    ∧ (resolveCountry countryList countryParam).isSome = true := by
  have hdefSome : (resolveDefault countryList).isSome = true := by
    rcases countryList with _ | ⟨c, cs⟩
    · exact absurd rfl hne
    · by_cases hA : "Algeria" ∈ (c :: cs)
      · simp [resolveDefault, hA]
      · simp [resolveDefault, hA]
  refine ⟨?_, ?_, ?_, ?_⟩
  · intro p hp hpne hmem
    simp [resolveCountry, hp, hpne, hmem]
  · intro hnot hA
    rcases hcp : countryParam with _ | p
    · simp [resolveCountry, resolveDefault, hA]
    · rcases hnot p hcp with h | h
      · subst h
        simp [resolveCountry, resolveDefault, hA]
      · simp [resolveCountry, resolveDefault, hA, h]
  · intro hnot hA
    rcases hcp : countryParam with _ | p
    · simp [resolveCountry, resolveDefault, hA]
    · rcases hnot p hcp with h | h
      · subst h
        simp [resolveCountry, resolveDefault, hA]
      · simp [resolveCountry, resolveDefault, hA, h]
  · rcases hcp : countryParam with _ | p
    · exact hdefSome
    · simp only [resolveCountry]
      split
      · rfl
      · exact hdefSome

/-- Counterexample to claim C8 as stated: with catalog `["France", ""]` and
the `country` parameter present with value `""` (URL `?country=`), the
parameter is a member of the catalog, yet the code selects `"France"` (the
first entry) because the empty string is falsy in
`if (countryParam && countryList.includes(countryParam))`. -/
theorem claimC8_counterexample :
    (["France", ""].contains "" = true)
    ∧ resolveCountry ["France", ""] (some "") = some "France" := by decide

/-- Witness for the amended claim C8: a present, non-empty, in-catalog
parameter wins. -/
theorem claimC8_witness :
    resolveCountry ["Algeria", "France"] (some "France") = some "France" :=
  (claimC8_countryPriority ["Algeria", "France"] (some "France")
    (by decide)).1 "France" rfl (by decide) (by decide)

/-- Claim C9: when the catalog fetch fails — unreachable resource or
non-success HTTP status — the loader surfaces exactly the non-fatal warning
and proceeds to load the hardcoded `"Algeria"`; a country is always loaded,
so the failure never blocks the UI. -/
theorem claimC9_catalogFallback (countryParam : Option String)
    (status : Nat) :
    loadCountryListModel (.httpError status) countryParam =
      ([catalogFailureMsg], some "Algeria")
    ∧ loadCountryListModel .unreachable countryParam =
        ([catalogFailureMsg], some "Algeria")
    ∧ (loadCountryListModel (.httpError status) countryParam).2.isSome = true
    ∧ (loadCountryListModel .unreachable countryParam).2.isSome = true :=
  ⟨rfl, rfl, rfl, rfl⟩

/-- Claim C6: a slider move first transitions the controller to Stopped
(`stopAnimation` is called before anything else, so the state any index
change is applied to — and the final state — has `isPlaying = false`), and
the jump with its chart update is performed only when the requested index
differs from the current one. -/
theorem claimC6_scrubStopsFirst (newIndex : Int) (s : AppState) :
    (stopAnimation s).isPlaying = false
    ∧ (sliderInput newIndex s).isPlaying = false
    ∧ sliderInput newIndex s =
        (if newIndex = (s.currentYearIndex : Int) then stopAnimation s
         else updateChartForAnimation newIndex (stopAnimation s)) := by
  refine ⟨stopAnimation_isPlaying s, ?_, ?_⟩
  · simp only [sliderInput]
    split
    · exact stopAnimation_isPlaying s
    · rw [(updateChartForAnimation_fields newIndex (stopAnimation s)).1]
      exact stopAnimation_isPlaying s
  · simp only [sliderInput, stopAnimation_index s]

/-- A state with no pending interval and a stopped controller stays that
way under every post-stop operation (the stop handler, chart updates,
slider moves, and delivered tick events). -/
theorem stoppedInv_applyOp (t : AppState) (op : Op)
    (h : t.timer = none ∧ t.isPlaying = false) :
    (applyOp t op).timer = none ∧ (applyOp t op).isPlaying = false := by
  obtain ⟨ht, hp⟩ := h
  cases op with
  | stop =>
      simp only [applyOp, stopAnimation_noop t hp]
      exact ⟨ht, hp⟩
  | update dataIndex =>
      obtain ⟨f1, f2, _⟩ := updateChartForAnimation_fields dataIndex t
      exact ⟨by rw [applyOp, f2, ht], by rw [applyOp, f1, hp]⟩
  | slider newIndex =>
      simp only [applyOp, sliderInput, stopAnimation_noop t hp]
      split
      · exact ⟨ht, hp⟩
      · obtain ⟨f1, f2, _⟩ := updateChartForAnimation_fields newIndex t
        exact ⟨by rw [f2, ht], by rw [f1, hp]⟩
  | fire id =>
      simp only [applyOp, fireTick, ht]
      exact ⟨ht, hp⟩

/-- The stopped-and-cancelled invariant is preserved by any sequence of
post-stop operations. -/
theorem stoppedInv_applyOps (ops : List Op) (t : AppState)
    (h : t.timer = none ∧ t.isPlaying = false) :
    (applyOps ops t).timer = none ∧ (applyOps ops t).isPlaying = false := by
  induction ops generalizing t with
  | nil => exact h
  | cons op ops ih => exact ih (applyOp t op) (stoppedInv_applyOp t op h)

/-- A delivered tick has no effect on a state with no pending interval. -/
theorem fireTick_noop (id : Nat) (t : AppState) (h : t.timer = none) :
    fireTick id t = t := by
  simp [fireTick, h]

/-- Claim C7: stopping from Playing cancels the pending interval, and along
any subsequent sequence of operations that does not include
`startAnimation`, no tick event ever has an effect; stopping from Stopped
is a no-op. -/
theorem claimC7_stopCancelsTimer (s : AppState) (ops : List Op) (id : Nat) :
    (s.isPlaying = true →
      (stopAnimation s).timer = none
      ∧ fireTick id (applyOps ops (stopAnimation s)) =
          applyOps ops (stopAnimation s))
    ∧ (s.isPlaying = false → stopAnimation s = s) := by
  constructor
  · intro hp
    have hstop : (stopAnimation s).timer = none ∧
        (stopAnimation s).isPlaying = false := by
      constructor
      · simp [stopAnimation, hp]
      · exact stopAnimation_isPlaying s
    exact ⟨hstop.1,
      fireTick_noop id _ (stoppedInv_applyOps ops (stopAnimation s) hstop).1⟩
  · exact stopAnimation_noop s

/-- Witness for claim C7: a concrete playing state, stopped, then driven
through a chart update, a spurious tick for the old handle, and a second
stop — the old interval never fires again; and a concrete stopped state on
which `stopAnimation` is the identity. -/
theorem claimC7_witness :
    ((stopAnimation sPlaying).timer = none
    ∧ fireTick 7 (applyOps [Op.update 1, Op.fire 7, Op.stop]
        (stopAnimation sPlaying)) =
      applyOps [Op.update 1, Op.fire 7, Op.stop] (stopAnimation sPlaying))
    ∧ stopAnimation sThreeYears = sThreeYears :=
  ⟨(claimC7_stopCancelsTimer sPlaying [Op.update 1, Op.fire 7, Op.stop] 7).1
     (by decide),
   (claimC7_stopCancelsTimer sThreeYears [] 7).2 (by decide)⟩

/-- Witness for claim C3 on the concrete three-year state. -/
theorem claimC3_witness :
    (intervalTick sThreeYears).currentYearIndex =
      (sThreeYears.currentYearIndex + 1) % 3
    ∧ (intervalTick^[3] sThreeYears).currentYearIndex =
        sThreeYears.currentYearIndex
    ∧ (intervalTick^[1] sThreeYears).currentYearIndex ≠
        sThreeYears.currentYearIndex :=
  ⟨(claimC3_tickCycle sThreeYears 3 (by decide) (by decide) (by decide)).1,
   (claimC3_tickCycle sThreeYears 3 (by decide) (by decide) (by decide)).2.1,
   (claimC3_tickCycle sThreeYears 3 (by decide) (by decide) (by decide)).2.2
     1 (by decide) (by decide)⟩
